import Mathlib

/-!
# Verification of the GeoS4 geospatial core

Shallow embedding of the algorithmic core of the GeoS4 repository
(`geos4_py/geospatial_utils.py`, `geos4_py/tab_layers.py`,
`geos4_py/tab_play.py`, `geos4_py/tab_create_pattern.py`).

Coordinates are modelled as rationals (`ℚ`), mirroring the Python floats
in the idealised exact-arithmetic reading.  Python's `dict` (which keeps
insertion order) is modelled as an insertion-ordered association list.
Randomness (numpy / `random`) is modelled by explicit oracles supplying
the draws.  Euclidean distances (`np.linalg.norm`) require a square root
and are therefore modelled over `ℝ`.
-/

namespace Geos4

/-- A 2-D point (x = longitude-like, y = latitude-like), as held in a
`points_gdf` geometry column. -/
structure Pt where
  x : ℚ
  y : ℚ
deriving DecidableEq, Repr, Inhabited

/-- Axis-aligned bounding box, as returned by shapely's `.bounds`. -/
structure Bounds where
  minx : ℚ
  miny : ℚ
  maxx : ℚ
  maxy : ℚ
deriving DecidableEq, Repr, Inhabited

/-- A geometry row of a GeoDataFrame: a point, a polygon (exterior ring
plus interior rings), a multipolygon, or some other unsupported geometry
kind. -/
inductive Geom where
  | point (x y : ℚ)
  | poly (exterior : List (ℚ × ℚ)) (interiors : List (List (ℚ × ℚ)))
  | multipoly (parts : List (List (ℚ × ℚ) × List (List (ℚ × ℚ))))
  | other
deriving DecidableEq, Repr, Inhabited

/-- All coordinate pairs occurring in a geometry. -/
def geomCoords : Geom → List (ℚ × ℚ)
  | .point x y => [(x, y)]
  | .poly ext ints => ext ++ ints.flatten
  | .multipoly parts => (parts.map (fun pr => pr.1 ++ pr.2.flatten)).flatten
  | .other => []

/-- Bounding box of the `unary_union` of a list of geometries
(`city_polygon.bounds` in the source): the componentwise min/max over all
coordinates.  For an empty coordinate set it returns the degenerate box at
the origin (the source would raise there; no claim depends on that case). -/
def boundsOfGeoms (gs : List Geom) : Bounds :=
  match (gs.map geomCoords).flatten with
  | [] => ⟨0, 0, 0, 0⟩
  | c :: cs =>
    cs.foldl
      (fun b p => ⟨min b.minx p.1, min b.miny p.2, max b.maxx p.1, max b.maxy p.2⟩)
      ⟨c.1, c.2, c.1, c.2⟩

/-- A GeoDataFrame: a coordinate reference tag plus its geometry rows. -/
structure Gdf (α : Type) where
  crs : ℕ
  rows : List α
deriving DecidableEq, Repr

/-- Python's `int()` applied to a float: truncation toward zero. -/
def pyInt (q : ℚ) : ℤ :=
  if 0 ≤ q then ⌊q⌋ else ⌈q⌉

/-- Python's `round()` (round half to even), as used by the Grid
Alignment transformation. -/
def pyRound (q : ℚ) : ℤ :=
  let f := ⌊q⌋
  let r := q - f
  if r < 1/2 then f
  else if 1/2 < r then f + 1
  else if f % 2 = 0 then f else f + 1

/-- `" + ".join(parts)` from the source. -/
def joinPlus : List String → String
  | [] => ""
  | [s] => s
  | s :: rest => s ++ " + " ++ joinPlus rest

/-- Arithmetic mean of a list of rationals (`np.mean`). -/
def listMean (l : List ℚ) : ℚ :=
  l.sum / l.length

/-! ## Point-to-grid mapper (`process_points_to_sequencer`) -/

/-- Per-point record stored in the cell-occupancy dictionary. -/
structure PtRec where
  point_lng : ℚ
  point_lat : ℚ
  point_id : ℕ
deriving DecidableEq, Repr, Inhabited

/-- One active sequencer cell, aggregating all points mapped to one
(track, step) pair. -/
structure ActiveCell where
  track : ℤ
  step : ℤ
  point_lng : ℚ
  point_lat : ℚ
  point_id : ℕ
  point_count : ℕ
  point_density : ℚ
deriving DecidableEq, Repr

/-- The `grid_bounds` summary dictionary. -/
structure GridBoundsData where
  minLng : ℚ
  maxLng : ℚ
  minLat : ℚ
  maxLat : ℚ
  lng_step : ℚ
  lat_step : ℚ
  num_steps : ℤ
  num_tracks : ℤ
  total_points : ℕ
  active_cells_count : ℕ
  grid_efficiency : ℚ
deriving DecidableEq, Repr

/-- Result of `process_points_to_sequencer`. -/
structure SeqResult where
  active_cells : List ActiveCell
  grid_bounds : GridBoundsData
deriving DecidableEq, Repr

/-- Insert a keyed value into an insertion-ordered association list,
modelling `d[key].append(value)` on a Python dict (which preserves key
insertion order). -/
def insertKeyed {κ α : Type} [DecidableEq κ] (key : κ) (a : α) :
    List (κ × List α) → List (κ × List α)
  | [] => [(key, [a])]
  | (k, xs) :: rest =>
    if k = key then (k, xs ++ [a]) :: rest
    else (k, xs) :: insertKeyed key a rest

/-- Fold a keyed record list into the occupancy dictionary. -/
def buildOccupancy (keyed : List ((ℤ × ℤ) × PtRec)) :
    List ((ℤ × ℤ) × List PtRec) :=
  keyed.foldl (fun acc kr => insertKeyed kr.1 kr.2 acc) []

/-- The (track, step) cell key of one point, exactly as computed in the
source: the step index is truncated and clamped from above only, while the
track index is clamped on both sides. -/
def cellKeyOf (minx miny lng_step lat_step : ℚ) (num_steps num_tracks : ℤ)
    (p : Pt) : ℤ × ℤ :=
  let step_index := min (pyInt ((p.x - minx) / lng_step)) (num_steps - 1)
  let track_index :=
    max 0 (min (num_tracks - 1 - pyInt ((p.y - miny) / lat_step)) (num_tracks - 1))
  (track_index, step_index)

/-- Core of `process_points_to_sequencer`, applied to the boundary rows
and the raw point list. -/
def processCore (cityRows : List Geom) (ps : List Pt)
    (num_steps num_tracks : ℤ) : SeqResult :=
  let b := boundsOfGeoms cityRows
  let lng_step := (b.maxx - b.minx) / num_steps
  let lat_step := (b.maxy - b.miny) / num_tracks
  let keyed : List ((ℤ × ℤ) × PtRec) :=
    (ps.enum).map (fun pi =>
      (cellKeyOf b.minx b.miny lng_step lat_step num_steps num_tracks pi.2,
       ⟨pi.2.x, pi.2.y, pi.1⟩))
  let occupancy := buildOccupancy keyed
  let active_cells : List ActiveCell :=
    occupancy.map (fun cell =>
      { track := cell.1.1
        step := cell.1.2
        point_lng := listMean (cell.2.map PtRec.point_lng)
        point_lat := listMean (cell.2.map PtRec.point_lat)
        point_id := (cell.2.headI).point_id
        point_count := cell.2.length
        point_density :=
          if 0 < lng_step * lat_step then cell.2.length / (lng_step * lat_step) else 0 })
  { active_cells := active_cells
    grid_bounds :=
      { minLng := b.minx
        maxLng := b.maxx
        minLat := b.miny
        maxLat := b.maxy
        lng_step := lng_step
        lat_step := lat_step
        num_steps := num_steps
        num_tracks := num_tracks
        total_points := ps.length
        active_cells_count := active_cells.length
        grid_efficiency := (active_cells.length : ℚ) / (num_steps * num_tracks) } }

/-- `process_points_to_sequencer(city_gdf, points_gdf, num_steps, num_tracks)`:
returns `None` when either GeoDataFrame is `None`. -/
def process_points_to_sequencer (city_gdf : Option (Gdf Geom))
    (points_gdf : Option (Gdf Pt)) (num_steps num_tracks : ℤ) :
    Option SeqResult :=
  match city_gdf, points_gdf with
  | some c, some ps => some (processCore c.rows ps.rows num_steps num_tracks)
  | _, _ => none

/-! ## Grid dimension advisor (`calculate_optimal_grid_dimensions`)

The area of the boundary's `unary_union` is a shapely computation outside
the core; it is passed in as an oracle `areaO` on the boundary rows. -/

/-- Core of `calculate_optimal_grid_dimensions` for non-degenerate input. -/
def calcOptimalCore (ps : List Pt) (cityRows : List Geom) (area : ℚ)
    (max_steps max_tracks : ℤ) : ℤ × ℤ :=
  let b := boundsOfGeoms cityRows
  let width := b.maxx - b.minx
  let height := b.maxy - b.miny
  let aspect_ratio : ℚ := if 0 < height then width / height else 1
  let num_points := ps.length
  let point_density : ℚ := if 0 < area then (num_points : ℚ) / area else 0
  let base : ℤ × ℤ :=
    if num_points ≤ 16 then (8, 4)
    else if num_points ≤ 32 then (12, 4)
    else if num_points ≤ 64 then (16, 6)
    else if num_points ≤ 128 then (20, 6)
    else (24, 8)
  let st1 : ℤ × ℤ :=
    if 5/2 < aspect_ratio then
      (min (pyInt ((base.1 : ℚ) * (3/2))) max_steps,
       max (pyInt ((base.2 : ℚ) * (7/10))) 2)
    else if aspect_ratio < 2/5 then
      (max (pyInt ((base.1 : ℚ) * (7/10))) 8,
       min (pyInt ((base.2 : ℚ) * (3/2))) max_tracks)
    else if 3/2 < aspect_ratio then
      (min (pyInt ((base.1 : ℚ) * (6/5))) max_steps,
       max (pyInt ((base.2 : ℚ) * (9/10))) 2)
    else if aspect_ratio < 7/10 then
      (max (pyInt ((base.1 : ℚ) * (9/10))) 8,
       min (pyInt ((base.2 : ℚ) * (6/5))) max_tracks)
    else base
  let st2 : ℤ × ℤ :=
    if 1/1000 < point_density then
      (min (st1.1 + 4) max_steps, min (st1.2 + 2) max_tracks)
    else if point_density < 1/10000 then
      (max (st1.1 - 2) 8, max (st1.2 - 1) 2)
    else st1
  let s3 := st2.1 + st2.1 % 2
  let t3 := if 2 < st2.2 then st2.2 + st2.2 % 2 else st2.2
  (min (max s3 8) max_steps, min (max t3 2) max_tracks)

/-- `calculate_optimal_grid_dimensions(points_gdf, city_gdf, max_steps, max_tracks)`:
degenerate input (either GeoDataFrame `None`, or an empty point set) yields
the default `(16, 4)`. -/
def calculate_optimal_grid_dimensions (points_gdf : Option (Gdf Pt))
    (city_gdf : Option (Gdf Geom)) (areaO : List Geom → ℚ)
    (max_steps max_tracks : ℤ) : ℤ × ℤ :=
  match points_gdf, city_gdf with
  | some ps, some c =>
    if ps.rows.length = 0 then (16, 4)
    else calcOptimalCore ps.rows c.rows (areaO c.rows) max_steps max_tracks
  | _, _ => (16, 4)

/-! ## Pattern serializer (`convert_gdf_to_geojson`) -/

/-- The `geometry` part of an emitted GeoJSON feature. -/
inductive GeomData where
  | pointG (coords : ℚ × ℚ)
  | polyG (coords : List (List (ℚ × ℚ)))
  | multipolyG (coords : List (List (List (ℚ × ℚ))))
deriving DecidableEq, Repr

/-- One emitted GeoJSON feature: its `id`/`index` properties and `type` tag. -/
structure Feature where
  id : ℕ
  index : ℕ
  ftype : String
  geometry : GeomData
deriving DecidableEq, Repr

/-- The emitted feature collection with its own summary properties. -/
structure FeatureCollection where
  features : List Feature
  total_features : ℕ
  feature_types : List String
deriving DecidableEq, Repr

/-- Serialize one GeoDataFrame row at source index `i`: points become
`"point"` features, polygons and multipolygons become `"boundary"`
features, any other geometry is skipped (`None`). -/
def serializeGeom (i : ℕ) : Geom → Option Feature
  | .point x y => some ⟨i, i, "point", .pointG (x, y)⟩
  | .poly ext ints => some ⟨i, i, "boundary", .polyG (ext :: ints)⟩
  | .multipoly parts =>
    some ⟨i, i, "boundary", .multipolyG (parts.map (fun pr => pr.1 :: pr.2))⟩
  | .other => none

/-- Whether `convert_gdf_to_geojson` emits a feature for this geometry. -/
def supportedGeom : Geom → Bool
  | .other => false
  | _ => true

/-- The `for idx, row in gdf.iterrows()` loop, carrying the running index. -/
def serializeRows : ℕ → List Geom → List Feature
  | _, [] => []
  | i, g :: rest =>
    match serializeGeom i g with
    | some f => f :: serializeRows (i + 1) rest
    | none => serializeRows (i + 1) rest

/-- `convert_gdf_to_geojson(gdf)`.  The `feature_types` property is the
distinct set of `type` tags (`list(set(...))` in the source), modelled as
order-preserving deduplication. -/
def convert_gdf_to_geojson (gdf : Option (Gdf Geom)) : Option FeatureCollection :=
  match gdf with
  | none => none
  | some g =>
    let fs := serializeRows 0 g.rows
    some ⟨fs, fs.length, (fs.map Feature.ftype).dedup⟩

/-- View a points GeoDataFrame as a geometry GeoDataFrame (its rows are
Point geometries). -/
def pointsAsGeoms (g : Gdf Pt) : Gdf Geom :=
  ⟨g.crs, g.rows.map (fun p => Geom.point p.x p.y)⟩

/-! ## Spatial transformation engine (`apply_spatial_transformation`)

The `**kwargs` of the source become a record of the three numeric
parameters with their source defaults.  Randomness is supplied by
oracles: `ClusterRand` carries the first-centroid index
(`np.random.choice`) and the `np.random.rand()` stream of the k-means++
seeding; noise draws carry the per-point pattern choice and the unit
draws of the three samplers (`np.random.normal(0, s)` is `s` times a
standard normal draw, `np.random.uniform(-L, L)` is `-L + 2L·u` for
`u ∈ [0,1]`, and `np.random.exponential(s)` is `s` times a standard
exponential draw). -/

/-- The keyword parameters of `apply_spatial_transformation`. -/
structure TParams where
  num_clusters : ℕ
  grid_size : ℚ
  noise_level : ℚ
deriving DecidableEq, Repr

/-- Randomness consumed by one point of the Noise Addition branch. -/
structure NoiseDraw where
  pat : Fin 3
  zx : ℚ
  zy : ℚ
  ux : ℚ
  uy : ℚ
  ex : ℚ
  ey : ℚ
  sx : Bool
  sy : Bool
deriving DecidableEq, Repr

instance : Inhabited NoiseDraw := ⟨⟨0, 0, 0, 0, 0, 0, 0, true, true⟩⟩

/-- Randomness consumed by the Clustering branch. -/
structure ClusterRand where
  first : ℕ
  rs : ℕ → ℝ

/-- The (x, y) displacement of one point under Noise Addition. -/
def noiseSample (noise_level : ℚ) (d : NoiseDraw) : ℚ × ℚ :=
  if d.pat.val = 0 then
    (noise_level * d.zx, noise_level * d.zy)
  else if d.pat.val = 1 then
    (-noise_level + (noise_level - -noise_level) * d.ux,
     -noise_level + (noise_level - -noise_level) * d.uy)
  else
    ((noise_level / 2) * d.ex * (if d.sx then 1 else -1),
     (noise_level / 2) * d.ey * (if d.sy then 1 else -1))

/-- The Noise Addition branch: perturb every point by its draw. -/
def noiseAdd (noise_level : ℚ) (nr : ℕ → NoiseDraw) (ps : List Pt) : List Pt :=
  ps.mapIdx (fun i p =>
    let n := noiseSample noise_level (nr i)
    ⟨p.x + n.1, p.y + n.2⟩)

/-- The snapped grid key of one point under Grid Alignment
(`round(coord / grid_size) * grid_size`). -/
def gridKeyOf (grid_size : ℚ) (p : Pt) : ℚ × ℚ :=
  ((pyRound (p.x / grid_size) : ℚ) * grid_size,
   (pyRound (p.y / grid_size) : ℚ) * grid_size)

/-- The Grid Alignment branch: group points by snapped grid cell; a
singleton cell yields the snapped coordinate, a multi-point cell yields
the snapped coordinate offset by 30% of the mean deviation. -/
def gridAlign (grid_size : ℚ) (ps : List Pt) : List Pt :=
  let grid_cells :=
    ps.foldl (fun acc p => insertKeyed (gridKeyOf grid_size p) p acc) []
  grid_cells.map (fun cell =>
    if cell.2.length = 1 then ⟨cell.1.1, cell.1.2⟩
    else
      let avg_x := listMean (cell.2.map Pt.x)
      let avg_y := listMean (cell.2.map Pt.y)
      ⟨cell.1.1 + (avg_x - cell.1.1) * (3/10),
       cell.1.2 + (avg_y - cell.1.2) * (3/10)⟩)

/-- Squared Euclidean distance between two points. -/
def sqDist (p q : Pt) : ℚ :=
  (p.x - q.x) ^ 2 + (p.y - q.y) ^ 2

/-- `np.linalg.norm(coord - c)`: the Euclidean distance, over `ℝ`. -/
noncomputable def distR (p q : Pt) : ℝ :=
  Real.sqrt ((sqDist p q : ℚ) : ℝ)

/-- `min([np.linalg.norm(coord - c) for c in centroids])`: distance from a
candidate point to its nearest already-chosen centroid. -/
noncomputable def nearestDist (cs : List Pt) (p : Pt) : ℝ :=
  match cs with
  | [] => 0
  | c :: rest => rest.foldl (fun m c2 => min m (distR p c2)) (distR p c)

/-- The `distances` array of the k-means++ seeding step. -/
noncomputable def seedDistances (coords cs : List Pt) : List ℝ :=
  coords.map (nearestDist cs)

/-- The `probs = distances / distances.sum()` array of the k-means++
seeding step: the selection probabilities actually used by the source. -/
noncomputable def seedProbs (coords cs : List Pt) : List ℝ :=
  (seedDistances coords cs).map (fun d => d / (seedDistances coords cs).sum)

/-- Modelled from the spec: the selection probabilities the spec asserts,
proportional to the SQUARED distance from each candidate to its nearest
already-chosen centroid (true k-means++ seeding).  This definition follows
the spec's words and is compared against `seedProbs` from the source. -/
noncomputable def seedProbsSpecSquared (coords cs : List Pt) : List ℝ :=
  (coords.map (fun p => nearestDist cs p ^ 2)).map
    (fun w => w / (coords.map (fun p => nearestDist cs p ^ 2)).sum)

/-- `np.cumsum` with an explicit accumulator. -/
def cumsumFrom {α : Type} [Add α] (acc : α) : List α → List α
  | [] => []
  | x :: rest => (acc + x) :: cumsumFrom (acc + x) rest

/-- `np.searchsorted(a, v)` (default `side='left'`) on a sorted list: the
leftmost insertion index of `v`. -/
noncomputable def searchsortedLeft : List ℝ → ℝ → ℕ
  | [], _ => 0
  | a :: rest, v => if v ≤ a then 0 else searchsortedLeft rest v + 1

/-- The index drawn by one k-means++ seeding step, as a function of the
uniform draw `r = np.random.rand()`:
`np.searchsorted(probs.cumsum(), r)`. -/
noncomputable def seedPick (coords cs : List Pt) (r : ℝ) : ℕ :=
  searchsortedLeft (cumsumFrom 0 (seedProbs coords cs)) r

/-- The k-means++ seeding loop: the first centroid is the point at the
oracle's uniformly drawn index, each following centroid is the point
drawn via `seedPick`. -/
noncomputable def seedCentroids (coords : List Pt) (num_clusters : ℕ)
    (cr : ClusterRand) : List Pt :=
  (List.range (num_clusters - 1)).foldl
    (fun cs j => cs ++ [coords.getD (seedPick coords cs (cr.rs j)) default])
    [coords.getD cr.first default]

/-- `np.argmin`: index of the first minimal element. -/
def argminAux : List ℚ → ℚ → ℕ → ℕ → ℕ
  | [], _, _, best => best
  | x :: rest, bv, i, best =>
    if x < bv then argminAux rest x (i + 1) i
    else argminAux rest bv (i + 1) best

/-- `np.argmin` over a distance row; the source takes the argmin of the
Euclidean distances, which coincides with the argmin of the squared
distances. -/
def argminIdx : List ℚ → ℕ
  | [] => 0
  | x :: rest => argminAux rest x 1 0

/-- One Lloyd iteration: assign every point to its closest centroid, then
move each centroid to the mean of its cluster (a centroid with no points
keeps its position). -/
def lloydStep (coords : List Pt) (num_clusters : ℕ) (cs : List Pt) : List Pt :=
  let labels := coords.map (fun p => argminIdx (cs.map (sqDist p)))
  (List.range num_clusters).map (fun i =>
    let cluster := (coords.zip labels).filterMap
      (fun pl => if pl.2 = i then some pl.1 else none)
    if 0 < cluster.length then
      ⟨listMean (cluster.map Pt.x), listMean (cluster.map Pt.y)⟩
    else cs.getD i default)

/-- `np.allclose(a, b, atol=1e-6)` (numpy's default `rtol=1e-5` kept):
`|x - y| ≤ atol + rtol·|y|` componentwise. -/
def allclose (a b : List Pt) : Bool :=
  (a.zip b).all (fun pq =>
    decide (|pq.1.x - pq.2.x| ≤ 1/1000000 + (1/100000) * |pq.2.x|) &&
    decide (|pq.1.y - pq.2.y| ≤ 1/1000000 + (1/100000) * |pq.2.y|))

/-- The Lloyd refinement loop: at most `fuel` iterations, stopping early
when the centroids move within `allclose` tolerance (the source `break`s
before assigning the new centroids). -/
def lloydIter : ℕ → List Pt → ℕ → List Pt → List Pt
  | 0, _, _, cs => cs
  | fuel + 1, coords, num_clusters, cs =>
    let ncs := lloydStep coords num_clusters cs
    if allclose cs ncs then cs
    else lloydIter fuel coords num_clusters ncs

/-- The Clustering branch: k-means++ seeding plus up to 20 Lloyd
iterations, run only when there are at least `num_clusters` points
(otherwise `new_points` stays empty). -/
noncomputable def clusteringTransform (coords : List Pt) (num_clusters : ℕ)
    (cr : ClusterRand) : List Pt :=
  if num_clusters ≤ coords.length then
    lloydIter 20 coords num_clusters (seedCentroids coords num_clusters cr)
  else []

/-- `apply_spatial_transformation(points_gdf, transformation_type, **kwargs)`.
An empty or `None` point set is returned unchanged; an unrecognised
transformation kind falls through to the identity branch; an empty
`new_points` list (clustering with too few points) returns the input
unchanged. -/
noncomputable def apply_spatial_transformation (points_gdf : Option (Gdf Pt))
    (transformation_type : String) (params : TParams) (cr : ClusterRand)
    (nr : ℕ → NoiseDraw) : Option (Gdf Pt) :=
  match points_gdf with
  | none => none
  | some g =>
    if g.rows.length = 0 then some g
    else
      let new_points : List Pt :=
        if transformation_type = "Clustering" then
          clusteringTransform g.rows params.num_clusters cr
        else if transformation_type = "Grid Alignment" then
          gridAlign params.grid_size g.rows
        else if transformation_type = "Noise Addition" then
          noiseAdd params.noise_level nr g.rows
        else g.rows
      if new_points.length ≠ 0 then some ⟨g.crs, new_points⟩ else some g

/-! ## Layer union compositors
(`tab_layers.create_layer_union`, `tab_play.create_layer_union_for_sequencer`)

Re-projection between coordinate references (`gdf.to_crs(base_crs)`) is a
geopandas operation outside the core; it is passed in as oracles
`reprojP` / `reprojG` and invoked exactly where the source invokes
`to_crs` (only on a GeoDataFrame whose CRS differs from the base). -/

/-- The `grid_config` dictionary stored with a pattern. -/
structure GridConfig where
  num_steps : ℤ
  num_tracks : ℤ
deriving DecidableEq, Repr

/-- The `pattern_data` dictionary built in `tab_create_pattern`. -/
structure PatternData where
  city_gdf : Option (Gdf Geom)
  points_gdf : Option (Gdf Pt)
  location_name : String
  data_info : String
  grid_config : Option GridConfig
  active_cells_data : Option SeqResult
  geojson_data : Option FeatureCollection
  city_bounds_data : Option FeatureCollection
deriving DecidableEq, Repr

/-- `all_points` collector: point GeoDataFrames of the patterns that are
non-`None` and non-empty. -/
def collectPoints (patterns : List PatternData) : List (Gdf Pt) :=
  patterns.filterMap (fun pat =>
    match pat.points_gdf with
    | some g => if g.rows.isEmpty then none else some g
    | none => none)

/-- `all_location_gdfs` / `all_city_gdfs` collector. -/
def collectCities (patterns : List PatternData) : List (Gdf Geom) :=
  patterns.filterMap (fun pat =>
    match pat.city_gdf with
    | some g => if g.rows.isEmpty then none else some g
    | none => none)

/-- `all_locations` collector (truthy location names only). -/
def collectLocations (patterns : List PatternData) : List String :=
  patterns.filterMap (fun pat =>
    if pat.location_name = "" then none else some pat.location_name)

/-- `all_data_info` collector (truthy data-info strings only). -/
def collectDataInfo (patterns : List PatternData) : List String :=
  patterns.filterMap (fun pat =>
    if pat.data_info = "" then none else some pat.data_info)

/-- Concatenate GeoDataFrames onto the first one's CRS, re-projecting
only those whose CRS differs (`pd.concat` with `ignore_index=True`). -/
def concatAligned {α : Type} (reproj : Gdf α → ℕ → Gdf α) (g : Gdf α)
    (rest : List (Gdf α)) : Gdf α :=
  let aligned := (g :: rest).map (fun h => if h.crs = g.crs then h else reproj h g.crs)
  ⟨g.crs, (aligned.map Gdf.rows).flatten⟩

/-- Result of `tab_layers.create_layer_union`. -/
structure LayerUnionResult where
  union_points_gdf : Gdf Pt
  union_city_gdf : Gdf Geom
  combined_location : String
  combined_data_info : String
  geojson_data : Option FeatureCollection
  city_bounds_data : Option FeatureCollection
deriving DecidableEq, Repr

/-- `tab_layers.create_layer_union(layer_data)`: concatenates the point
sets, keeps every boundary GeoDataFrame as-is (never dissolves), joins
the labels with `" + "`.  Returns `None` when no pattern has points, and
also when no pattern has a boundary (the source hits an `IndexError`
there which its `except` turns into the all-`None` return). -/
def create_layer_union (reprojP : Gdf Pt → ℕ → Gdf Pt)
    (reprojG : Gdf Geom → ℕ → Gdf Geom) (patterns : List PatternData) :
    Option LayerUnionResult :=
  match collectPoints patterns with
  | [] => none
  | p0 :: prest =>
    match collectCities patterns with
    | [] => none
    | c0 :: crest =>
      let union_points := if prest.isEmpty then p0 else concatAligned reprojP p0 prest
      let union_city := if crest.isEmpty then c0 else concatAligned reprojG c0 crest
      let locs := collectLocations patterns
      let infos := collectDataInfo patterns
      some
        { union_points_gdf := union_points
          union_city_gdf := union_city
          combined_location := if locs.isEmpty then "Multiple Locations" else joinPlus locs
          combined_data_info := if infos.isEmpty then "Multiple Patterns" else joinPlus infos
          geojson_data := convert_gdf_to_geojson (some (pointsAsGeoms union_points))
          city_bounds_data := convert_gdf_to_geojson (some union_city) }

/-- The `union_info` summary of the multi-pattern sequencer union. -/
structure UnionInfo where
  pattern_count : ℕ
  total_points : ℕ
  locations : List String
  data_types : List String
deriving DecidableEq, Repr

/-- Result of `tab_play.create_layer_union_for_sequencer`. -/
structure SequencerUnion where
  geojson_data : Option FeatureCollection
  city_bounds_data : Option FeatureCollection
  active_cells_data : Option SeqResult
  grid_config : GridConfig
  location_name : String
  data_info : String
  has_geodata : Bool
  union_info : Option UnionInfo
deriving DecidableEq, Repr

/-- `tab_play.create_layer_union_for_sequencer(layer_data)`: a single
pattern is used directly (its stored fields are returned verbatim, with
the default grid config when none is stored); multiple patterns are
unioned with boundary preservation and the grid is recomputed on the
union. -/
def create_layer_union_for_sequencer (areaO : List Geom → ℚ)
    (reprojP : Gdf Pt → ℕ → Gdf Pt) (reprojG : Gdf Geom → ℕ → Gdf Geom)
    (patterns : List PatternData) : Option SequencerUnion :=
  match patterns with
  | [] => none
  | [p] =>
    some
      { geojson_data := p.geojson_data
        city_bounds_data := p.city_bounds_data
        active_cells_data := p.active_cells_data
        grid_config := p.grid_config.getD ⟨16, 4⟩
        location_name := p.location_name
        data_info := p.data_info
        has_geodata := p.city_gdf.isSome && p.points_gdf.isSome
        union_info := none }
  | _ :: _ :: _ =>
    match collectPoints patterns with
    | [] => none
    | p0 :: prest =>
      match collectCities patterns with
      | [] => none
      | c0 :: crest =>
        let union_points := if prest.isEmpty then p0 else concatAligned reprojP p0 prest
        let union_city := if crest.isEmpty then c0 else concatAligned reprojG c0 crest
        let locs := collectLocations patterns
        let infos := collectDataInfo patterns
        let st := calculate_optimal_grid_dimensions (some union_points)
          (some union_city) areaO 32 8
        some
          { geojson_data := convert_gdf_to_geojson (some (pointsAsGeoms union_points))
            city_bounds_data := convert_gdf_to_geojson (some union_city)
            active_cells_data :=
              process_points_to_sequencer (some union_city) (some union_points) st.1 st.2
            grid_config := ⟨st.1, st.2⟩
            location_name := if locs.isEmpty then "Multiple Locations" else joinPlus locs
            data_info := if infos.isEmpty then "Multiple Patterns" else joinPlus infos
            has_geodata := true
            union_info := some ⟨patterns.length, union_points.rows.length, locs, infos⟩ }

/-- A pattern as created by `tab_create_pattern`: the stored grid config,
active cells and GeoJSON fields are exactly the direct-mapping pipeline
(`calculate_optimal_grid_dimensions` → `process_points_to_sequencer` →
`convert_gdf_to_geojson`) applied to its own boundary and point set. -/
def mkPatternData (areaO : List Geom → ℚ) (city : Gdf Geom) (points : Gdf Pt)
    (loc info : String) : PatternData :=
  let st := calculate_optimal_grid_dimensions (some points) (some city) areaO 32 8
  { city_gdf := some city
    points_gdf := some points
    location_name := loc
    data_info := info
    grid_config := some ⟨st.1, st.2⟩
    active_cells_data := process_points_to_sequencer (some city) (some points) st.1 st.2
    geojson_data := convert_gdf_to_geojson (some (pointsAsGeoms points))
    city_bounds_data := convert_gdf_to_geojson (some city) }

/-- Boundary GeoDataFrame with bounding box [(0,0)-(10,10)], used by the
concrete grid-mapper scenarios. -/
def city10 : Gdf Geom := ⟨4326, [Geom.poly [(0, 0), (10, 0), (10, 10), (0, 10)] []]⟩

/-- Concrete mixed GeoDataFrame exercising the serializer: a point, an
unsupported geometry, and a polygon boundary. -/
def gdfMixed : Gdf Geom :=
  ⟨0, [Geom.point 1 2, Geom.other, Geom.poly [(0, 0), (1, 0), (1, 1), (0, 0)] []]⟩

/-- The feature collection the serializer emits for `gdfMixed`. -/
def fcMixed : FeatureCollection :=
  ⟨[⟨0, 0, "point", .pointG (1, 2)⟩,
    ⟨2, 2, "boundary", .polyG [[(0, 0), (1, 0), (1, 1), (0, 0)]]⟩],
   2, ["point", "boundary"]⟩

/-- Concrete point set of pattern A (3 points). -/
def ptsA : Gdf Pt := ⟨1, [⟨0, 0⟩, ⟨1, 0⟩, ⟨0, 1⟩]⟩

/-- Concrete point set of pattern B (5 points). -/
def ptsB : Gdf Pt := ⟨1, [⟨2, 2⟩, ⟨3, 2⟩, ⟨2, 3⟩, ⟨4, 4⟩, ⟨5, 5⟩]⟩

/-- Boundary geometry of pattern A. -/
def geomBA : Geom := Geom.poly [(0, 0), (1, 0), (1, 1), (0, 0)] []

/-- Boundary geometry of pattern B. -/
def geomBB : Geom := Geom.poly [(2, 2), (3, 2), (3, 3), (2, 2)] []

/-- Concrete pattern A: boundary BA, 3 points, label "A-label". -/
def patA : PatternData :=
  ⟨some ⟨1, [geomBA]⟩, some ptsA, "A-label", "A-data", none, none, none, none⟩

/-- Concrete pattern B: boundary BB, 5 points, label "B-label". -/
def patB : PatternData :=
  ⟨some ⟨1, [geomBB]⟩, some ptsB, "B-label", "B-data", none, none, none, none⟩

/-- Identity point re-projection oracle (all CRS equal). -/
def idReprojP : Gdf Pt → ℕ → Gdf Pt := fun g _ => g

/-- Identity boundary re-projection oracle (all CRS equal). -/
def idReprojG : Gdf Geom → ℕ → Gdf Geom := fun g _ => g

/-- A constant cluster-randomness oracle. -/
noncomputable def crZero : ClusterRand := ⟨0, fun _ => 0⟩

/-- Concrete candidate points for the k-means++ seeding analysis:
the origin plus two points at (exact) distances 3 and 4 from it. -/
def coordsT : List Pt := [⟨0, 0⟩, ⟨3, 0⟩, ⟨0, 4⟩]

/-- Concrete already-chosen centroid set: just the origin. -/
def centT : List Pt := [⟨0, 0⟩]

/-! ## Helper lemmas -/

theorem insertKeyed_sizes {κ α : Type} [DecidableEq κ] (key : κ) (a : α)
    (acc : List (κ × List α)) :
    ((insertKeyed key a acc).map (fun c => c.2.length)).sum =
      (acc.map (fun c => c.2.length)).sum + 1 := by
  induction acc with
  | nil => simp [insertKeyed]
  | cons hd tl ih =>
    obtain ⟨k, xs⟩ := hd
    by_cases h : k = key <;> simp [insertKeyed, h, ih] <;> omega

theorem foldl_insertKeyed_sizes {κ α : Type} [DecidableEq κ]
    (keyed : List (κ × α)) :
    ∀ acc : List (κ × List α),
      (((keyed.foldl (fun acc kr => insertKeyed kr.1 kr.2 acc) acc).map
          (fun c => c.2.length)).sum) =
        (acc.map (fun c => c.2.length)).sum + keyed.length := by
  induction keyed with
  | nil => intro acc; simp
  | cons hd tl ih =>
    intro acc
    simp only [List.foldl_cons, ih, insertKeyed_sizes, List.length_cons]
    omega

theorem mapIdx_self {α : Type} (f : ℕ → α → α) (l : List α)
    (hf : ∀ i a, f i a = a) : l.mapIdx f = l := by
  induction l generalizing f with
  | nil => simp
  | cons hd tl ih => simp [List.mapIdx_cons, hf, ih]

theorem pyRound_intCast (a : ℤ) : pyRound (a : ℚ) = a := by
  simp [pyRound]

theorem serializeGeom_id (i : ℕ) (g : Geom) (f : Feature)
    (h : serializeGeom i g = some f) : f.id = i := by
  cases g <;> simp [serializeGeom] at h <;> simp [← h]

theorem serializeGeom_ftype (i : ℕ) (g : Geom) (f : Feature)
    (h : serializeGeom i g = some f) :
    f.ftype = "point" ∨ f.ftype = "boundary" := by
  cases g <;> simp [serializeGeom] at h
  case point => left; simp [← h]
  case poly => right; simp [← h]
  case multipoly => right; simp [← h]

theorem serializeRows_sound (rows : List Geom) :
    ∀ (i : ℕ) (f : Feature), f ∈ serializeRows i rows →
      i ≤ f.id ∧ ∃ geo, rows.get? (f.id - i) = some geo ∧
        serializeGeom f.id geo = some f := by
  induction rows with
  | nil => intro i f hf; simp [serializeRows] at hf
  | cons g rest ih =>
    intro i f hf
    simp only [serializeRows] at hf
    cases hser : serializeGeom i g with
    | none =>
      rw [hser] at hf
      obtain ⟨hle, geo, hget, hgeo⟩ := ih (i + 1) f hf
      refine ⟨by omega, geo, ?_, hgeo⟩
      have : f.id - i = (f.id - (i + 1)) + 1 := by omega
      rw [this]
      simpa using hget
    | some f0 =>
      rw [hser] at hf
      rcases List.mem_cons.mp hf with hEq | hmem
      · subst hEq
        have hid : f.id = i := serializeGeom_id i g f hser
        refine ⟨le_of_eq hid.symm, g, ?_, ?_⟩
        · simp [hid]
        · rw [hid]; exact hser
      · obtain ⟨hle, geo, hget, hgeo⟩ := ih (i + 1) f hmem
        refine ⟨by omega, geo, ?_, hgeo⟩
        have : f.id - i = (f.id - (i + 1)) + 1 := by omega
        rw [this]
        simpa using hget

theorem serializeRows_length (rows : List Geom) :
    ∀ i, (serializeRows i rows).length = (rows.filter supportedGeom).length := by
  induction rows with
  | nil => intro i; simp [serializeRows]
  | cons g rest ih =>
    intro i
    cases g <;> simp [serializeRows, serializeGeom, supportedGeom, List.filter, ih]

/-! ## Claims -/

attribute [local semireducible] Rat.mul Rat.inv Rat.add Rat.sub

/-- C8: for a boundary with bounding box [(0,0)-(10,10)], the four points
(1,1), (1,9), (9,1), (9,9) mapped with steps = 8 and tracks = 8 produce
exactly 4 distinct ActiveCells at (track, step) pairs (7,0), (0,0),
(7,7), (0,7) respectively: track 0 is the topmost (highest-latitude) row
and the index arithmetic is floor-then-clamp. -/
theorem c8_end_to_end_grid_scenario :
    ((process_points_to_sequencer (some city10)
        (some ⟨4326, [⟨1, 1⟩, ⟨1, 9⟩, ⟨9, 1⟩, ⟨9, 9⟩]⟩) 8 8).map
      (fun r => r.active_cells.map (fun a => (a.track, a.step)))) =
      some [(7, 0), (0, 0), (7, 7), (0, 7)] ∧
    ([(7, 0), (0, 0), (7, 7), (0, 7)] : List (ℤ × ℤ)).Nodup := by
  constructor
  · decide
  · decide

/-- C2 (failing input): the step index is NOT clamped below at 0.  For
the boundary with bounding box [(0,0)-(10,10)], steps = tracks = 8, the
single point (-2, 5) is mapped to the cell (track 3, step -1): the
source computes `int((p.x - minx)/lng_step)` and then only
`min(step_index, num_steps - 1)`, with no lower clamp, so the claimed
interval [0, steps) is violated. -/
theorem c2_step_index_not_clamped_below :
    ((process_points_to_sequencer (some city10) (some ⟨4326, [⟨-2, 5⟩]⟩) 8 8).map
      (fun r => r.active_cells.map (fun a => (a.track, a.step)))) =
      some [(3, -1)] ∧ (-1 : ℤ) < 0 := by
  constructor
  · decide
  · decide

/-- C1: conservation of points.  For any boundary with a non-degenerate
bounding box and any positive grid dimensions, the sum of `point_count`
over all ActiveCells returned by `process_points_to_sequencer` equals
the number of input points. -/
theorem c1_point_conservation (c : Gdf Geom) (psg : Gdf Pt) (s t : ℤ)
    (hs : 0 < s) (ht : 0 < t)
    (hw : (boundsOfGeoms c.rows).minx < (boundsOfGeoms c.rows).maxx)
    (hh : (boundsOfGeoms c.rows).miny < (boundsOfGeoms c.rows).maxy) :
    (process_points_to_sequencer (some c) (some psg) s t).map
      (fun r => (r.active_cells.map (fun a => a.point_count)).sum) =
      some psg.rows.length := by
  simp only [process_points_to_sequencer, processCore, Option.map_some']
  rw [Option.some_inj]
  rw [List.map_map]
  have hcomp :
      ((fun a : ActiveCell => a.point_count) ∘
        (fun cell : (ℤ × ℤ) × List PtRec =>
          ({ track := cell.1.1
             step := cell.1.2
             point_lng := listMean (cell.2.map PtRec.point_lng)
             point_lat := listMean (cell.2.map PtRec.point_lat)
             point_id := (cell.2.headI).point_id
             point_count := cell.2.length
             point_density := if 0 <
                 ((boundsOfGeoms c.rows).maxx - (boundsOfGeoms c.rows).minx) / s *
                   (((boundsOfGeoms c.rows).maxy - (boundsOfGeoms c.rows).miny) / t) then
               cell.2.length /
                 (((boundsOfGeoms c.rows).maxx - (boundsOfGeoms c.rows).minx) / s *
                   (((boundsOfGeoms c.rows).maxy - (boundsOfGeoms c.rows).miny) / t))
             else 0 } : ActiveCell))) =
        fun cell : (ℤ × ℤ) × List PtRec => cell.2.length := by
    funext cell
    rfl
  rw [hcomp, buildOccupancy, foldl_insertKeyed_sizes]
  simp [List.enum_length]

/-- C1 witness: the conservation theorem applied to the concrete
[(0,0)-(10,10)] boundary, two points and an 8×8 grid. -/
theorem c1_point_conservation_witness :
    (process_points_to_sequencer (some city10)
        (some ⟨4326, [⟨1, 1⟩, ⟨1, 9⟩]⟩) 8 8).map
      (fun r => (r.active_cells.map (fun a => a.point_count)).sum) = some 2 :=
  c1_point_conservation city10 ⟨4326, [⟨1, 1⟩, ⟨1, 9⟩]⟩ 8 8 (by norm_num)
    (by norm_num) (by norm_num [city10, boundsOfGeoms, geomCoords])
    (by norm_num [city10, boundsOfGeoms, geomCoords])

/-- C4: the grid dimension advisor returns steps in [8,32] and tracks in
[2,8] for every non-degenerate input, and returns exactly the default
(16, 4) for every degenerate input (a `None` point set, a `None`
boundary, or an empty point set). -/
theorem c4_advisor_bounds_and_default :
    (∀ (ps : Gdf Pt) (c : Gdf Geom) (areaO : List Geom → ℚ), ps.rows ≠ [] →
      8 ≤ (calculate_optimal_grid_dimensions (some ps) (some c) areaO 32 8).1 ∧
      (calculate_optimal_grid_dimensions (some ps) (some c) areaO 32 8).1 ≤ 32 ∧
      2 ≤ (calculate_optimal_grid_dimensions (some ps) (some c) areaO 32 8).2 ∧
      (calculate_optimal_grid_dimensions (some ps) (some c) areaO 32 8).2 ≤ 8) ∧
    (∀ (c : Option (Gdf Geom)) (areaO : List Geom → ℚ),
      calculate_optimal_grid_dimensions none c areaO 32 8 = (16, 4)) ∧
    (∀ (ps : Option (Gdf Pt)) (areaO : List Geom → ℚ),
      calculate_optimal_grid_dimensions ps none areaO 32 8 = (16, 4)) ∧
    (∀ (crs : ℕ) (c : Gdf Geom) (areaO : List Geom → ℚ),
      calculate_optimal_grid_dimensions (some ⟨crs, []⟩) (some c) areaO 32 8 = (16, 4)) := by
  refine ⟨?_, ?_, ?_, ?_⟩
  · intro ps c areaO hne
    have hlen : ps.rows.length ≠ 0 := by
      simpa [List.length_eq_zero] using hne
    simp only [calculate_optimal_grid_dimensions, hlen, if_false, calcOptimalCore]
    refine ⟨le_min (le_max_right _ _) (by norm_num), min_le_right _ _,
      le_min (le_max_right _ _) (by norm_num), min_le_right _ _⟩
  · intro c areaO
    cases c <;> rfl
  · intro ps areaO
    cases ps <;> rfl
  · intro crs c areaO
    simp [calculate_optimal_grid_dimensions]

/-- C4 witness: the advisor applied to a concrete non-degenerate input
lands in the [8,32] × [2,8] envelope, and the degenerate inputs yield
(16, 4). -/
theorem c4_advisor_bounds_and_default_witness :
    (8 ≤ (calculate_optimal_grid_dimensions (some ⟨4326, [⟨1, 1⟩]⟩) (some city10)
        (fun _ => 100) 32 8).1 ∧
      (calculate_optimal_grid_dimensions (some ⟨4326, [⟨1, 1⟩]⟩) (some city10)
        (fun _ => 100) 32 8).1 ≤ 32 ∧
      2 ≤ (calculate_optimal_grid_dimensions (some ⟨4326, [⟨1, 1⟩]⟩) (some city10)
        (fun _ => 100) 32 8).2 ∧
      (calculate_optimal_grid_dimensions (some ⟨4326, [⟨1, 1⟩]⟩) (some city10)
        (fun _ => 100) 32 8).2 ≤ 8) ∧
    calculate_optimal_grid_dimensions none (some city10) (fun _ => 100) 32 8 = (16, 4) ∧
    calculate_optimal_grid_dimensions (some ⟨4326, []⟩) (some city10)
      (fun _ => 100) 32 8 = (16, 4) :=
  ⟨c4_advisor_bounds_and_default.1 ⟨4326, [⟨1, 1⟩]⟩ city10 (fun _ => 100) (by decide),
   c4_advisor_bounds_and_default.2.1 (some city10) (fun _ => 100),
   c4_advisor_bounds_and_default.2.2.2 4326 city10 (fun _ => 100)⟩

/-- C10: the pattern serializer skips unsupported geometries without
error (the emitted feature count is the count of point/polygon rows),
every emitted feature carries the `id` of its source row and a type tag
that is "point" or "boundary", `total_features` equals the number of
emitted features, and `feature_types` is the distinct set of type tags
present among them. -/
theorem c10_serializer_properties (g : Gdf Geom) (fc : FeatureCollection)
    (hfc : convert_gdf_to_geojson (some g) = some fc) :
    (∀ f ∈ fc.features, (f.ftype = "point" ∨ f.ftype = "boundary") ∧
      ∃ geo, g.rows.get? f.id = some geo ∧ serializeGeom f.id geo = some f) ∧
    fc.features.length = (g.rows.filter supportedGeom).length ∧
    fc.total_features = fc.features.length ∧
    fc.feature_types.Nodup ∧
    (∀ s : String, s ∈ fc.feature_types ↔ s ∈ fc.features.map Feature.ftype) := by
  simp only [convert_gdf_to_geojson, Option.some_inj] at hfc
  subst hfc
  refine ⟨?_, serializeRows_length g.rows 0, rfl, List.nodup_dedup _,
    fun s => List.mem_dedup⟩
  intro f hf
  obtain ⟨hle, geo, hget, hgeo⟩ := serializeRows_sound g.rows 0 f hf
  refine ⟨serializeGeom_ftype f.id geo f hgeo, geo, ?_, hgeo⟩
  simpa using hget

/-- C10 witness: the serializer theorem applied to a concrete mixed
GeoDataFrame (a point, an unsupported geometry, a polygon). -/
theorem c10_serializer_properties_witness :
    convert_gdf_to_geojson (some gdfMixed) = some fcMixed ∧
    fcMixed.total_features = fcMixed.features.length ∧
    fcMixed.features.length = (gdfMixed.rows.filter supportedGeom).length :=
  ⟨by decide,
   (c10_serializer_properties gdfMixed fcMixed (by decide)).2.2.1,
   (c10_serializer_properties gdfMixed fcMixed (by decide)).2.1⟩

/-- C9: Grid Alignment is idempotent on a point lying exactly at a grid
node: for every positive cell size, applying the transformation to a
singleton point set whose coordinates are exact integer multiples of the
cell size returns the point unchanged, and applying it again leaves the
representative unchanged. -/
theorem c9_grid_alignment_idempotent (crs : ℕ) (grid_size : ℚ) (a b : ℤ)
    (nc : ℕ) (nl : ℚ) (cr : ClusterRand) (nr : ℕ → NoiseDraw)
    (hg : 0 < grid_size) :
    apply_spatial_transformation
        (some ⟨crs, [⟨(a : ℚ) * grid_size, (b : ℚ) * grid_size⟩]⟩)
        "Grid Alignment" ⟨nc, grid_size, nl⟩ cr nr =
      some ⟨crs, [⟨(a : ℚ) * grid_size, (b : ℚ) * grid_size⟩]⟩ ∧
    apply_spatial_transformation
        (apply_spatial_transformation
          (some ⟨crs, [⟨(a : ℚ) * grid_size, (b : ℚ) * grid_size⟩]⟩)
          "Grid Alignment" ⟨nc, grid_size, nl⟩ cr nr)
        "Grid Alignment" ⟨nc, grid_size, nl⟩ cr nr =
      some ⟨crs, [⟨(a : ℚ) * grid_size, (b : ℚ) * grid_size⟩]⟩ := by
  have hkey : gridKeyOf grid_size ⟨(a : ℚ) * grid_size, (b : ℚ) * grid_size⟩ =
      ((a : ℚ) * grid_size, (b : ℚ) * grid_size) := by
    simp [gridKeyOf, mul_div_cancel_right₀ _ (ne_of_gt hg), pyRound_intCast]
  have h1 : apply_spatial_transformation
      (some ⟨crs, [⟨(a : ℚ) * grid_size, (b : ℚ) * grid_size⟩]⟩)
      "Grid Alignment" ⟨nc, grid_size, nl⟩ cr nr =
      some ⟨crs, [⟨(a : ℚ) * grid_size, (b : ℚ) * grid_size⟩]⟩ := by
    simp [apply_spatial_transformation, gridAlign, insertKeyed, hkey]
  exact ⟨h1, by rw [h1]; exact h1⟩

/-- C9 witness: idempotence at cell size 1 and grid node (2, 3). -/
theorem c9_grid_alignment_idempotent_witness :
    apply_spatial_transformation (some ⟨4326, [⟨(2 : ℚ) * 1, (3 : ℚ) * 1⟩]⟩)
        "Grid Alignment" ⟨3, 1, 1/10000⟩ crZero (fun _ => default) =
      some ⟨4326, [⟨(2 : ℚ) * 1, (3 : ℚ) * 1⟩]⟩ :=
  (c9_grid_alignment_idempotent 4326 1 2 3 3 (1/10000) crZero
    (fun _ => default) (by norm_num)).1

/-- C5 (amended): the spatial transformation engine performs no
parameter validation.  Noise Addition with noise level 0 returns the
point set unperturbed (all three noise samplers collapse to a zero
displacement), and an unknown transformation kind falls through to the
identity branch and returns the input unchanged; neither is rejected. -/
theorem c5_no_validation_amended :
    (∀ (g : Gdf Pt) (nc : ℕ) (gs : ℚ) (cr : ClusterRand) (nr : ℕ → NoiseDraw),
      apply_spatial_transformation (some g) "Noise Addition" ⟨nc, gs, 0⟩ cr nr =
        some g) ∧
    (∀ (g : Gdf Pt) (t : String) (params : TParams) (cr : ClusterRand)
      (nr : ℕ → NoiseDraw),
      t ≠ "Clustering" → t ≠ "Grid Alignment" → t ≠ "Noise Addition" →
      apply_spatial_transformation (some g) t params cr nr = some g) := by
  have hzero : ∀ (nr : ℕ → NoiseDraw) (ps : List Pt), noiseAdd 0 nr ps = ps := by
    intro nr ps
    unfold noiseAdd
    refine mapIdx_self _ ps (fun i p => ?_)
    simp only [noiseSample]
    split_ifs <;> norm_num
  constructor
  · intro g nc gs cr nr
    by_cases hg : g.rows.length = 0
    · simp [apply_spatial_transformation, hg]
    · simp [apply_spatial_transformation, hg, hzero]
  · intro g t params cr nr h1 h2 h3
    by_cases hg : g.rows.length = 0
    · simp [apply_spatial_transformation, hg]
    · simp [apply_spatial_transformation, hg, h1, h2, h3]

/-- C5 witness: the amended theorem at a concrete point set, for an
unknown kind ("Rotation") and for Noise Addition with level 0. -/
theorem c5_no_validation_amended_witness :
    apply_spatial_transformation (some ⟨4326, [⟨1, 2⟩]⟩) "Rotation"
        ⟨3, 1/1000, 1/10⟩ crZero (fun _ => default) = some ⟨4326, [⟨1, 2⟩]⟩ ∧
    apply_spatial_transformation (some ⟨4326, [⟨1, 2⟩]⟩) "Noise Addition"
        ⟨3, 1/1000, 0⟩ crZero (fun _ => default) = some ⟨4326, [⟨1, 2⟩]⟩ :=
  ⟨c5_no_validation_amended.2 ⟨4326, [⟨1, 2⟩]⟩ "Rotation" ⟨3, 1/1000, 1/10⟩
      crZero (fun _ => default) (by decide) (by decide) (by decide),
   c5_no_validation_amended.1 ⟨4326, [⟨1, 2⟩]⟩ 3 (1/1000) crZero (fun _ => default)⟩

/-- C5 counterexample: applying Noise Addition with noise level 0 to a
non-empty point set is NOT rejected: the engine returns the points
unperturbed (for any randomness), contradicting the claimed
ConfigurationError. -/
theorem c5_counterexample_noise_zero_not_rejected :
    apply_spatial_transformation (some ⟨4326, [⟨1, 2⟩]⟩) "Noise Addition"
        ⟨3, 1/1000, 0⟩ crZero (fun _ => default) = some ⟨4326, [⟨1, 2⟩]⟩ := by
  have hzero : noiseAdd 0 (fun _ => default) [⟨1, 2⟩] = [⟨1, 2⟩] := by
    unfold noiseAdd
    refine mapIdx_self _ _ (fun i p => ?_)
    simp only [noiseSample]
    split_ifs <;> norm_num
  simp [apply_spatial_transformation, hzero]

/-- C7: for a layer containing exactly one pattern, the sequencer union
is element-for-element the direct mapping of that pattern: its GeoJSON
point set, its boundary collection, its active cells and its grid
configuration are exactly those produced by running the advisor, the
mapper and the serializer directly on the pattern's boundary and point
set. -/
theorem c7_single_pattern_union_equals_direct (areaO : List Geom → ℚ)
    (reprojP : Gdf Pt → ℕ → Gdf Pt) (reprojG : Gdf Geom → ℕ → Gdf Geom)
    (city : Gdf Geom) (points : Gdf Pt) (loc info : String) :
    create_layer_union_for_sequencer areaO reprojP reprojG
      [mkPatternData areaO city points loc info] =
    some
      { geojson_data := convert_gdf_to_geojson (some (pointsAsGeoms points))
        city_bounds_data := convert_gdf_to_geojson (some city)
        active_cells_data := process_points_to_sequencer (some city) (some points)
          (calculate_optimal_grid_dimensions (some points) (some city) areaO 32 8).1
          (calculate_optimal_grid_dimensions (some points) (some city) areaO 32 8).2
        grid_config :=
          ⟨(calculate_optimal_grid_dimensions (some points) (some city) areaO 32 8).1,
           (calculate_optimal_grid_dimensions (some points) (some city) areaO 32 8).2⟩
        location_name := loc
        data_info := info
        has_geodata := true
        union_info := none } := rfl

/-- C3: the union of a layer holding two patterns (A with boundary BA
and 3 points, B with boundary BB and 5 points, same CRS, non-empty
labels) yields exactly the two boundaries [BA, BB] unmodified (never
dissolved), the 8-point concatenation of both point sets in pattern
order, and the combined label "A-label + B-label". -/
theorem c3_two_pattern_union (reprojP : Gdf Pt → ℕ → Gdf Pt)
    (reprojG : Gdf Geom → ℕ → Gdf Geom) (pA pB : PatternData)
    (gpA gpB : Gdf Pt) (cA cB : Gdf Geom) (BA BB : Geom)
    (hpA : pA.points_gdf = some gpA) (hpB : pB.points_gdf = some gpB)
    (hnA : gpA.rows.length = 3) (hnB : gpB.rows.length = 5)
    (hcA : pA.city_gdf = some cA) (hcB : pB.city_gdf = some cB)
    (hrA : cA.rows = [BA]) (hrB : cB.rows = [BB])
    (hcrsP : gpB.crs = gpA.crs) (hcrsC : cB.crs = cA.crs)
    (hlA : pA.location_name ≠ "") (hlB : pB.location_name ≠ "") :
    (create_layer_union reprojP reprojG [pA, pB]).map
      (fun r => (r.union_city_gdf.rows, r.union_points_gdf.rows,
        r.combined_location)) =
      some ([BA, BB], gpA.rows ++ gpB.rows,
        pA.location_name ++ " + " ++ pB.location_name) ∧
    (gpA.rows ++ gpB.rows).length = 8 := by
  have hAne : gpA.rows ≠ [] := by intro h; rw [h] at hnA; simp at hnA
  have hBne : gpB.rows ≠ [] := by intro h; rw [h] at hnB; simp at hnB
  have hcAne : cA.rows ≠ [] := by simp [hrA]
  have hcBne : cB.rows ≠ [] := by simp [hrB]
  have hApts : collectPoints [pA, pB] = [gpA, gpB] := by
    simp [collectPoints, hpA, hpB, hAne, hBne]
  have hAc : collectCities [pA, pB] = [cA, cB] := by
    simp [collectCities, hcA, hcB, hcAne, hcBne]
  have hlocs : collectLocations [pA, pB] = [pA.location_name, pB.location_name] := by
    simp [collectLocations, hlA, hlB]
  constructor
  · simp only [create_layer_union, hApts, hAc]
    simp [concatAligned, hcrsP, hcrsC, hrA, hrB, hlocs, joinPlus]
  · simp [List.length_append, hnA, hnB]

/-- C3 witness: the two-pattern union theorem at the concrete patterns
A (3 points, boundary BA, label "A-label") and B (5 points, boundary
BB, label "B-label"). -/
theorem c3_two_pattern_union_witness :
    (create_layer_union idReprojP idReprojG [patA, patB]).map
      (fun r => (r.union_city_gdf.rows, r.union_points_gdf.rows,
        r.combined_location)) =
      some ([geomBA, geomBB], ptsA.rows ++ ptsB.rows, "A-label" ++ " + " ++ "B-label") ∧
    (ptsA.rows ++ ptsB.rows).length = 8 :=
  c3_two_pattern_union idReprojP idReprojG patA patB ptsA ptsB
    ⟨1, [geomBA]⟩ ⟨1, [geomBB]⟩ geomBA geomBB rfl rfl rfl rfl rfl rfl rfl rfl
    rfl rfl (by decide) (by decide)

theorem nearestDist_nonneg (cs : List Pt) (p : Pt) : 0 ≤ nearestDist cs p := by
  cases cs with
  | nil => simp [nearestDist]
  | cons c rest =>
    simp only [nearestDist]
    have haux : ∀ (l : List Pt) (m : ℝ), 0 ≤ m →
        0 ≤ l.foldl (fun m c2 => min m (distR p c2)) m := by
      intro l
      induction l with
      | nil => intro m hm; simpa using hm
      | cons x xs ih =>
        intro m hm
        simp only [List.foldl_cons]
        exact ih _ (le_min hm (Real.sqrt_nonneg _))
    exact haux rest _ (Real.sqrt_nonneg _)

theorem searchsortedLeft_cumsumFrom (p : List ℝ) (hp : ∀ x ∈ p, 0 ≤ x) :
    ∀ (i : ℕ) (a r : ℝ), a < r → i < p.length →
      (searchsortedLeft (cumsumFrom a p) r = i ↔
        a + (p.take i).sum < r ∧ r ≤ a + (p.take (i + 1)).sum) := by
  induction p with
  | nil => intro i a r _ hi; simp at hi
  | cons x rest ih =>
    intro i a r har hi
    have hx : 0 ≤ x := hp x (List.mem_cons_self x rest)
    have hprest : ∀ y ∈ rest, 0 ≤ y := fun y hy => hp y (List.mem_cons_of_mem x hy)
    simp only [cumsumFrom, searchsortedLeft]
    cases i with
    | zero =>
      simp only [List.take_zero, List.sum_nil, add_zero, List.take_succ_cons,
        List.sum_cons]
      split_ifs with h
      · constructor
        · intro _
          exact ⟨har, by simpa using h⟩
        · intro _
          rfl
      · push_neg at h
        constructor
        · intro habs
          simp at habs
        · intro ⟨_, hle⟩
          exact absurd (lt_of_lt_of_le h hle) (lt_irrefl _)
    | succ j =>
      split_ifs with h
      · constructor
        · intro habs
          simp at habs
        · intro ⟨hlt, _⟩
          have hs : 0 ≤ (rest.take j).sum :=
            List.sum_nonneg (fun y hy => hprest y (List.mem_of_mem_take hy))
          rw [List.take_succ_cons, List.sum_cons] at hlt
          linarith
      · push_neg at h
        have hjlen : j < rest.length := by simpa using hi
        have hIH := ih hprest j (a + x) r h hjlen
        simp only [List.take_succ_cons, List.sum_cons, Nat.add_right_cancel_iff]
        rw [hIH]
        constructor
        · intro ⟨h1, h2⟩
          exact ⟨by linarith, by linarith⟩
        · intro ⟨h1, h2⟩
          exact ⟨by linarith, by linarith⟩

/-- C6 (amended): in the k-means++ seeding, the index of each subsequent
centroid is drawn with probability proportional to the UNSQUARED
Euclidean distance from the candidate to its nearest already-chosen
centroid: the set of uniform draws `r` selecting candidate `i` is the
interval between consecutive entries of the cumulative probability
array, whose width is that candidate's distance divided by the total
distance. -/
theorem c6_seeding_proportional_to_distance (coords cs : List Pt) (i : ℕ)
    (r : ℝ) (hi : i < coords.length)
    (htot : 0 < (seedDistances coords cs).sum) (hr : 0 < r) :
    (seedPick coords cs r = i ↔
      ((seedProbs coords cs).take i).sum < r ∧
        r ≤ ((seedProbs coords cs).take (i + 1)).sum) ∧
    ((seedProbs coords cs).take (i + 1)).sum -
        ((seedProbs coords cs).take i).sum =
      nearestDist cs (coords.getD i default) / (seedDistances coords cs).sum := by
  have hlen : (seedProbs coords cs).length = coords.length := by
    simp [seedProbs, seedDistances]
  have hilen : i < (seedProbs coords cs).length := by rw [hlen]; exact hi
  have hp : ∀ x ∈ seedProbs coords cs, 0 ≤ x := by
    intro x hx
    simp only [seedProbs, List.mem_map] at hx
    obtain ⟨d, hd, rfl⟩ := hx
    simp only [seedDistances, List.mem_map] at hd
    obtain ⟨q, _, rfl⟩ := hd
    exact div_nonneg (nearestDist_nonneg cs q) (le_of_lt htot)
  constructor
  · have hchar := searchsortedLeft_cumsumFrom (seedProbs coords cs) hp i 0 r hr hilen
    simpa [seedPick] using hchar
  · rw [List.sum_take_succ _ i hilen, add_sub_cancel_left]
    have hgd : coords.getD i default = coords.get ⟨i, hi⟩ := by
      rw [List.getD_eq_getElem coords default hi]
      simp
    rw [hgd]
    simp [seedProbs, seedDistances]

theorem distT_three : distR ⟨3, 0⟩ ⟨0, 0⟩ = 3 := by
  have h : ((sqDist ⟨3, 0⟩ ⟨0, 0⟩ : ℚ) : ℝ) = 3 ^ 2 := by
    norm_num [sqDist]
  rw [distR, h, Real.sqrt_sq (by norm_num)]

theorem distT_four : distR ⟨0, 4⟩ ⟨0, 0⟩ = 4 := by
  have h : ((sqDist ⟨0, 4⟩ ⟨0, 0⟩ : ℚ) : ℝ) = 4 ^ 2 := by
    norm_num [sqDist]
  rw [distR, h, Real.sqrt_sq (by norm_num)]

theorem distT_zero : distR ⟨0, 0⟩ ⟨0, 0⟩ = 0 := by
  have h : ((sqDist ⟨0, 0⟩ ⟨0, 0⟩ : ℚ) : ℝ) = 0 := by
    norm_num [sqDist]
  rw [distR, h, Real.sqrt_zero]

theorem seedDistancesT : seedDistances coordsT centT = [0, 3, 4] := by
  simp [seedDistances, coordsT, centT, nearestDist, distT_zero, distT_three,
    distT_four]

/-- C6 counterexample: with candidates at distances 0, 3 and 4 from the
single chosen centroid, the source draws candidate 1 with probability
3/7 (distance-proportional), while the claimed squared-distance law
would give 9/25; the two differ. -/
theorem c6_counterexample_squared_law_fails :
    (seedProbs coordsT centT).getD 1 0 = 3 / 7 ∧
    (seedProbsSpecSquared coordsT centT).getD 1 0 = 9 / 25 ∧
    (seedProbs coordsT centT).getD 1 0 ≠
      (seedProbsSpecSquared coordsT centT).getD 1 0 := by
  have h1 : (seedProbs coordsT centT).getD 1 0 = 3 / 7 := by
    simp [seedProbs, seedDistancesT]
    norm_num
  have h2 : (seedProbsSpecSquared coordsT centT).getD 1 0 = 9 / 25 := by
    simp [seedProbsSpecSquared, coordsT, centT, nearestDist, distT_zero,
      distT_three, distT_four]
    norm_num
  refine ⟨h1, h2, ?_⟩
  rw [h1, h2]
  norm_num

/-- C6 witness: the amended seeding theorem applied to the concrete
candidates at distances 0, 3, 4 and the draw r = 1/2. -/
theorem c6_seeding_proportional_to_distance_witness :
    (seedPick coordsT centT (1/2) = 1 ↔
      ((seedProbs coordsT centT).take 1).sum < 1/2 ∧
        (1/2 : ℝ) ≤ ((seedProbs coordsT centT).take 2).sum) ∧
    ((seedProbs coordsT centT).take 2).sum -
        ((seedProbs coordsT centT).take 1).sum =
      nearestDist centT (coordsT.getD 1 default) /
        (seedDistances coordsT centT).sum :=
  c6_seeding_proportional_to_distance coordsT centT 1 (1/2) (by decide)
    (by rw [seedDistancesT]; norm_num) (by norm_num)

end Geos4
